import Mathlib

/-!
Shallow embedding of the Durable Object storage coordination layer of
`workerd` (files `src/workerd/api/actor-state.h`, the RequestTracker
header, and the alarm-deletion test), together with proofs about the
option-resolution pipeline, the transaction lifecycle, the request
tracker and the alarm slot.

`jsg::Optional<T>` is embedded as `Option T`; `kj::Maybe<T>` likewise.
Bodies that live in `actor-state.c++` / `request-tracker.c++` (not part
of the excerpt) are modelled from the specification and marked as such
in their doc comments.
-/

namespace Workerd

/-- `ActorCacheOps::ReadOptions` as consumed by the facade (storage-engine
collaborator interface: a single `noCache` flag). -/
structure ReadOptions where
  noCache : Bool
deriving DecidableEq, Repr

/-- `ActorCacheOps::WriteOptions` as consumed by the facade
(`allowUnconfirmed` and `noCache` flags). The default member initializer
`noCache = false` is modelled from the spec's conservative-default policy
(the collaborator header is not part of the excerpt). -/
structure WriteOptions where
  allowUnconfirmed : Bool
  noCache : Bool := false
deriving DecidableEq, Repr

/-- `DurableObjectStorageOperations::GetOptions` from actor-state.h:
fields `allowConcurrency?` and `noCache?`. -/
structure GetOptions where
  allowConcurrency : Option Bool
  noCache : Option Bool
deriving DecidableEq, Repr

/-- The inline conversion `GetOptions::operator ReadOptions()`:
`noCache = noCache.orDefault(false)`. -/
def GetOptions.toReadOptions (o : GetOptions) : ReadOptions :=
  { noCache := o.noCache.getD false }

/-- `DurableObjectStorageOperations::GetAlarmOptions` from actor-state.h:
only an `allowConcurrency?` field (no `noCache`). -/
structure GetAlarmOptions where
  allowConcurrency : Option Bool
deriving DecidableEq, Repr

/-- `DurableObjectStorageOperations::ListOptions` from actor-state.h
(the source fields `end` and `prefix` are written `«end»` and `prefix_`,
since Lean reserves those words). -/
structure ListOptions where
  start : Option String
  startAfter : Option String
  «end» : Option String
  prefix_ : Option String
  reverse : Option Bool
  limit : Option Int
  allowConcurrency : Option Bool
  noCache : Option Bool
deriving DecidableEq, Repr

/-- The inline conversion `ListOptions::operator ReadOptions()`:
`noCache = noCache.orDefault(false)`. -/
def ListOptions.toReadOptions (o : ListOptions) : ReadOptions :=
  { noCache := o.noCache.getD false }

/-- `DurableObjectStorageOperations::PutOptions` from actor-state.h:
fields `allowConcurrency?`, `allowUnconfirmed?`, `noCache?`. -/
structure PutOptions where
  allowConcurrency : Option Bool
  allowUnconfirmed : Option Bool
  noCache : Option Bool
deriving DecidableEq, Repr

/-- The inline conversion `PutOptions::operator WriteOptions()`:
both fields default to `false` when absent. -/
def PutOptions.toWriteOptions (o : PutOptions) : WriteOptions :=
  { allowUnconfirmed := o.allowUnconfirmed.getD false,
    noCache := o.noCache.getD false }

/-- `DurableObjectStorageOperations::SetAlarmOptions` from actor-state.h:
fields `allowConcurrency?` and `allowUnconfirmed?`; the header comment
says "We don't allow noCache for alarm puts", so there is no `noCache`
field. -/
structure SetAlarmOptions where
  allowConcurrency : Option Bool
  allowUnconfirmed : Option Bool
deriving DecidableEq, Repr

/-- The inline conversion `SetAlarmOptions::operator WriteOptions()`:
only `allowUnconfirmed = allowUnconfirmed.orDefault(false)` is set;
`noCache` keeps the collaborator default. -/
def SetAlarmOptions.toWriteOptions (o : SetAlarmOptions) : WriteOptions :=
  { allowUnconfirmed := o.allowUnconfirmed.getD false }

/-- The template `DurableObjectStorageOperations::configureOptions`
instantiated at `GetOptions`: when `useDirectIo()` is true, force
`allowConcurrency = true` and `noCache = true`; otherwise return the
options unchanged. -/
def configureGetOptions (useDirectIo : Bool) (options : GetOptions) : GetOptions :=
  if useDirectIo then
    { options with allowConcurrency := some true, noCache := some true }
  else options

/-- `configureOptions` instantiated at `ListOptions`. -/
def configureListOptions (useDirectIo : Bool) (options : ListOptions) : ListOptions :=
  if useDirectIo then
    { options with allowConcurrency := some true, noCache := some true }
  else options

/-- `configureOptions` instantiated at `PutOptions`. -/
def configurePutOptions (useDirectIo : Bool) (options : PutOptions) : PutOptions :=
  if useDirectIo then
    { options with allowConcurrency := some true, noCache := some true }
  else options

/-- `DurableObjectStorage::useDirectIo()` override from actor-state.h:
returns `false`. -/
def DurableObjectStorage.useDirectIo : Bool := false

/-- `DurableObjectTransaction::useDirectIo()` override from actor-state.h:
returns `false`. -/
def DurableObjectTransaction.useDirectIo : Bool := false

/-- Modelled from the spec: the body of `getAlarm` (in actor-state.c++,
absent from the excerpt) resolves its `GetAlarmOptions` into read-path
options through `configureOptions` before dispatch; the alarm read path
carries no caller-controlled `noCache`, so that field starts absent. -/
def dispatchGetAlarmOptions (useDirectIo : Bool) (o : GetAlarmOptions) : GetOptions :=
  configureGetOptions useDirectIo { allowConcurrency := o.allowConcurrency, noCache := none }

/-- Modelled from the spec: the body of `setAlarm` (in actor-state.c++,
absent from the excerpt) resolves its `SetAlarmOptions` into write-path
options through `configureOptions` before dispatch, leaving
`allowUnconfirmed` as given; no caller-controlled `noCache` exists, so
that field starts absent. -/
def dispatchSetAlarmOptions (useDirectIo : Bool) (o : SetAlarmOptions) : PutOptions :=
  configurePutOptions useDirectIo
    { allowConcurrency := o.allowConcurrency,
      allowUnconfirmed := o.allowUnconfirmed,
      noCache := none }

/-- Modelled from the spec: `deleteAlarm` takes the same `SetAlarmOptions`
and resolves them through the same write path as `setAlarm`. -/
def dispatchDeleteAlarmOptions (useDirectIo : Bool) (o : SetAlarmOptions) : PutOptions :=
  dispatchSetAlarmOptions useDirectIo o

/-- The seven public storage operations of the facade. -/
inductive StorageOp where
  | get
  | list
  | put
  | delete
  | getAlarm
  | setAlarm
  | deleteAlarm
deriving DecidableEq, Repr

/-- The JS-visible fields of each operation's options struct, as declared
by the `JSG_STRUCT(...)` lines in actor-state.h (`get` takes `GetOptions`,
`list` takes `ListOptions`, `put` and `delete` take `PutOptions`,
`getAlarm` takes `GetAlarmOptions`, `setAlarm` and `deleteAlarm` take
`SetAlarmOptions`). -/
def jsgStructFields : StorageOp → List String
  | .get => ["allowConcurrency", "noCache"]
  | .list => ["start", "startAfter", "end", "prefix", "reverse", "limit",
              "allowConcurrency", "noCache"]
  | .put => ["allowConcurrency", "allowUnconfirmed", "noCache"]
  | .delete => ["allowConcurrency", "allowUnconfirmed", "noCache"]
  | .getAlarm => ["allowConcurrency"]
  | .setAlarm => ["allowConcurrency", "allowUnconfirmed"]
  | .deleteAlarm => ["allowConcurrency", "allowUnconfirmed"]

/-- The write-path operations (those whose options carry `allowUnconfirmed`). -/
def StorageOp.isWriteOp : StorageOp → Bool
  | .put | .delete | .setAlarm | .deleteAlarm => true
  | _ => false

/-- The alarm-slot operations. -/
def StorageOp.isAlarmOp : StorageOp → Bool
  | .getAlarm | .setAlarm | .deleteAlarm => true
  | _ => false

/-! ## Transaction coordinator (`DurableObjectStorage` / `DurableObjectTransaction`) -/

/-- The error taxonomy of the coordination layer (spec section 7). -/
inductive StorageOpError where
  | concurrencyDenied
  | transactionClosed
  | unsupportedOperation
  | outOfRetentionWindow
  | storageError
  | actorAborted
deriving DecidableEq, Repr

/-- State of one `DurableObjectTransaction`. `cacheTxn` is the presence of
the owned `kj::Maybe<IoOwn<ActorCacheInterface::Transaction>>` handle
("Becomes null when committed or rolled back", actor-state.h); `rolledBack`
is the flag of the same name. `commitsIssued` / `rollbacksIssued` count the
commit / rollback primitives actually issued to the underlying cache
transaction, and `data` is the key/value view inside the transaction. -/
structure TxnState where
  cacheTxn : Bool
  rolledBack : Bool
  commitsIssued : Nat
  rollbacksIssued : Nat
  data : List (String × String)
deriving DecidableEq, Repr

/-- A freshly opened transaction over the cache view `d`. -/
def TxnState.fresh (d : List (String × String)) : TxnState :=
  { cacheTxn := true, rolledBack := false, commitsIssued := 0,
    rollbacksIssued := 0, data := d }

/-- Modelled from the spec: `DurableObjectTransaction::maybeCommit`
(actor-state.c++ is absent from the excerpt; the header says "These
methods do nothing if the transaction is already committed / rolled
back"). When the handle is present, issue a commit to the cache
transaction and clear the handle; otherwise do nothing. -/
def maybeCommit (s : TxnState) : TxnState :=
  if s.cacheTxn then
    { s with cacheTxn := false, commitsIssued := s.commitsIssued + 1 }
  else s

/-- Modelled from the spec: `DurableObjectTransaction::maybeRollback`.
When the handle is present, issue a rollback, clear the handle and set
`rolledBack`; otherwise do nothing. -/
def maybeRollback (s : TxnState) : TxnState :=
  if s.cacheTxn then
    { s with cacheTxn := false, rolledBack := true,
             rollbacksIssued := s.rollbacksIssued + 1 }
  else s

/-- Modelled from the spec: the JS-exposed `rollback()` rolls the
transaction back; on an already-closed transaction it is an idempotent
no-op ("both are idempotent no-ops if the transaction handle is already
closed"). -/
def rollback (s : TxnState) : TxnState := maybeRollback s

/-- Modelled from the spec: `DurableObjectTransaction::getCache` guards
every storage operation of a transaction. On a rolled-back transaction or
one whose handle is gone (already committed), the operation fails with
`TransactionClosed`. -/
def getCacheTxn (s : TxnState) : Except StorageOpError Unit :=
  if s.rolledBack then .error .transactionClosed
  else if s.cacheTxn then .ok () else .error .transactionClosed

/-- `get` on a transaction: guarded by `getCacheTxn`, then an
association-list lookup in the transaction's view. -/
def txnGet (s : TxnState) (key : String) : Except StorageOpError (Option String) :=
  match getCacheTxn s with
  | .error e => .error e
  | .ok _ => .ok (s.data.lookup key)

/-- `put` on a transaction: guarded by `getCacheTxn`, then a shadowing
insert into the transaction's view. -/
def txnPut (s : TxnState) (key value : String) : Except StorageOpError TxnState :=
  match getCacheTxn s with
  | .error e => .error e
  | .ok _ => .ok { s with data := (key, value) :: s.data }

/-- `delete` on a transaction: guarded by `getCacheTxn`; removes the key
and reports whether it was present. -/
def txnDelete (s : TxnState) (key : String) : Except StorageOpError (TxnState × Bool) :=
  match getCacheTxn s with
  | .error e => .error e
  | .ok _ =>
      .ok ({ s with data := s.data.filter (fun e => e.1 ≠ key) },
           (s.data.lookup key).isSome)

/-- `list` on a transaction: guarded by `getCacheTxn`. -/
def txnList (s : TxnState) : Except StorageOpError (List (String × String)) :=
  match getCacheTxn s with
  | .error e => .error e
  | .ok _ => .ok s.data

/-- `DurableObjectTransaction::deleteAll` ("Just throws an exception
saying this isn't supported", actor-state.h): always fails with
`UnsupportedOperation`, returning no new state. -/
def txnDeleteAll (_s : TxnState) : Except StorageOpError TxnState :=
  .error .unsupportedOperation

/-- Modelled from the spec: `DurableObjectStorage::deleteAll` at the root
level clears all keys as one atomic batch (actor-state.c++ absent). -/
def storageDeleteAll (_data : List (String × String)) : List (String × String) := []

/-- The JS-level operations a transaction closure may perform on its
transaction handle. Failed guarded operations raise to JS without
changing the transaction state. -/
inductive TxnJsOp where
  | getOp (key : String)
  | putOp (key value : String)
  | deleteOp (key : String)
  | listOp
  | rollbackOp
deriving DecidableEq, Repr

/-- The state effect of one JS-level operation inside the closure. -/
def applyTxnJsOp (s : TxnState) : TxnJsOp → TxnState
  | .getOp _ => s
  | .putOp k v => match txnPut s k v with | .ok s' => s' | .error _ => s
  | .deleteOp k => match txnDelete s k with | .ok r => r.1 | .error _ => s
  | .listOp => s
  | .rollbackOp => rollback s

/-- Modelled from the spec: the coordinator of a callback transaction.
The closure performs `ops` on the transaction; if it threw
(`closureThrew`), the coordinator calls `maybeRollback`, otherwise
`maybeCommit`. -/
def runTransaction (ops : List TxnJsOp) (closureThrew : Bool) (s : TxnState) : TxnState :=
  if closureThrew then maybeRollback (ops.foldl applyTxnJsOp s)
  else maybeCommit (ops.foldl applyTxnJsOp s)

/-! ## RequestTracker -/

/-- State of one `RequestTracker` (request-tracker header): the
`activeRequests` counter, whether the `kj::Maybe<Hooks&>` reference is
still populated (`shutdown()` clears it), and how many times each hook
has been invoked. -/
structure TrackerState where
  activeRequests : Int
  hooksPresent : Bool
  activeCalls : Nat
  inactiveCalls : Nat
deriving DecidableEq, Repr

/-- A freshly constructed tracker: zero active requests, hooks populated,
no hook calls yet. -/
def TrackerState.init : TrackerState :=
  { activeRequests := 0, hooksPresent := true, activeCalls := 0, inactiveCalls := 0 }

/-- Events in a tracker's life: `startRequest()` creates an
`ActiveRequest` token, `finishRequest` is that token's destruction, and
`shutdownEv` is a `shutdown()` call. -/
inductive TrackerEv where
  | startRequest
  | finishRequest
  | shutdownEv
deriving DecidableEq, Repr

/-- Modelled from the spec: the tracker's transitions
(request-tracker.c++ absent from the excerpt; the header says: on
creation, if the parent has 0 active requests, call the `active()` hook;
on destruction, if it has 0 active requests, call the `inactive()` hook;
`shutdown()` clears the hooks, preventing any hooks from running after
that point). Hook invocations require the hooks reference to still be
populated. -/
def trackerStep (s : TrackerState) : TrackerEv → TrackerState
  | .startRequest =>
      if s.activeRequests = 0 ∧ s.hooksPresent then
        { s with activeRequests := s.activeRequests + 1,
                 activeCalls := s.activeCalls + 1 }
      else { s with activeRequests := s.activeRequests + 1 }
  | .finishRequest =>
      if s.activeRequests - 1 = 0 ∧ s.hooksPresent then
        { s with activeRequests := s.activeRequests - 1,
                 inactiveCalls := s.inactiveCalls + 1 }
      else { s with activeRequests := s.activeRequests - 1 }
  | .shutdownEv => { s with hooksPresent := false }

/-- A run of the tracker over a sequence of events. -/
def runTracker (s : TrackerState) (evs : List TrackerEv) : TrackerState :=
  evs.foldl trackerStep s

/-- The net change one event makes to `activeRequests`. -/
def evDelta : TrackerEv → Int
  | .startRequest => 1
  | .finishRequest => -1
  | .shutdownEv => 0

/-- The net change a sequence of events makes to `activeRequests`. -/
def traceDelta (evs : List TrackerEv) : Int :=
  (evs.map evDelta).sum

/-! ## Alarm slot -/

/-- Modelled from the spec: the per-actor alarm slot (the alarm machinery
lives in the actor cache, absent from the excerpt; spec sections 3, 4.5
and 8, and the expectations of actor-alarms-delete-test.js). `pending` is
the at-most-one scheduled alarm time; `firing` is true while the
`alarm()` handler of a fired alarm is executing; `queuedDuringFiring`
records that a new alarm was queued by `setAlarm` during the current
handler invocation; `fireCount` counts handler invocations. -/
structure AlarmState where
  pending : Option Int
  firing : Bool
  queuedDuringFiring : Bool
  fireCount : Nat
deriving DecidableEq, Repr

/-- An actor with no alarm ever scheduled. -/
def AlarmState.init : AlarmState :=
  { pending := none, firing := false, queuedDuringFiring := false, fireCount := 0 }

/-- Modelled from the spec: `setAlarm(time)` atomically supersedes any
previous pending alarm; when invoked inside the `alarm()` handler it
marks the new alarm as queued during that invocation. -/
def setAlarm (time : Int) (s : AlarmState) : AlarmState :=
  { s with pending := some time, queuedDuringFiring := s.firing }

/-- Modelled from the spec: `deleteAlarm()`. Outside a handler it clears
the pending alarm. Inside the currently executing `alarm()` handler it is
a no-op on the alarm that is firing, unless a new alarm was queued during
that same invocation, in which case it removes that newly queued alarm
instead. -/
def deleteAlarm (s : AlarmState) : AlarmState :=
  if s.firing then
    if s.queuedDuringFiring then
      { s with pending := none, queuedDuringFiring := false }
    else s
  else { s with pending := none }

/-- Modelled from the spec: `getAlarm()` reports the pending alarm time;
inside the handler the alarm being executed has already been consumed, so
it reports "no alarm" unless a new one was queued. -/
def getAlarm (s : AlarmState) : Option Int := s.pending

/-- Modelled from the spec: the scheduler invoking the `alarm()` handler
for the pending alarm: the pending slot is consumed, the handler starts
executing, and the fire count increases. Only a pending alarm outside a
running handler can fire. -/
def fireAlarm (s : AlarmState) : AlarmState :=
  if s.firing = false ∧ (getAlarm s).isSome then
    { s with pending := none, firing := true, queuedDuringFiring := false,
             fireCount := s.fireCount + 1 }
  else s

/-- Modelled from the spec: the `alarm()` handler returning; the actor
leaves the handler invocation. -/
def endAlarmHandler (s : AlarmState) : AlarmState :=
  { s with firing := false, queuedDuringFiring := false }

/-- The spec section 8 / actor-alarms-delete-test.js scenario, as alarm
slot transitions: set an alarm at `now+500`; the scheduler fires it;
inside the handler: `deleteAlarm()` with nothing queued, then
`setAlarm(now+50)` immediately followed by `deleteAlarm()`; the handler
ends; the scheduler gets another chance to fire. -/
def alarmScenario : AlarmState :=
  endAlarmHandler (deleteAlarm (setAlarm 50
    (deleteAlarm (fireAlarm (setAlarm 500 AlarmState.init)))))

/-! ## Theorems -/

/-- C1: for every storage operation and caller-supplied options, when the
enclosing scope's `useDirectIo()` is true the options used for dispatch
(the result of `configureOptions`) have `allowConcurrency = true` and
`noCache = true`, and every other field — `allowUnconfirmed` on the write
path included — is left as given. -/
theorem directIo_forces_concurrency_and_noCache
    (u : Bool) (g : GetOptions) (l : ListOptions) (p : PutOptions)
    (ga : GetAlarmOptions) (sa : SetAlarmOptions) (h : u = true) :
    configureGetOptions u g =
      { g with allowConcurrency := some true, noCache := some true } ∧
    configureListOptions u l =
      { l with allowConcurrency := some true, noCache := some true } ∧
    configurePutOptions u p =
      { p with allowConcurrency := some true, noCache := some true } ∧
    dispatchGetAlarmOptions u ga =
      { allowConcurrency := some true, noCache := some true } ∧
    dispatchSetAlarmOptions u sa =
      { allowConcurrency := some true, allowUnconfirmed := sa.allowUnconfirmed,
        noCache := some true } ∧
    dispatchDeleteAlarmOptions u sa =
      { allowConcurrency := some true, allowUnconfirmed := sa.allowUnconfirmed,
        noCache := some true } := by
  subst h
  refine ⟨rfl, rfl, rfl, rfl, ?_, ?_⟩ <;>
    simp [dispatchSetAlarmOptions, dispatchDeleteAlarmOptions, configurePutOptions]

/-- Witness for C1: direct I/O at concrete caller options. -/
theorem directIo_forces_concurrency_and_noCache_witness :
    configurePutOptions true
        { allowConcurrency := some false, allowUnconfirmed := some true,
          noCache := some false } =
      { allowConcurrency := some true, allowUnconfirmed := some true,
        noCache := some true } ∧
    dispatchGetAlarmOptions true { allowConcurrency := some false } =
      { allowConcurrency := some true, noCache := some true } := by
  have h := directIo_forces_concurrency_and_noCache true
    { allowConcurrency := none, noCache := none }
    { start := none, startAfter := none, «end» := none, prefix_ := none,
      reverse := none, limit := none, allowConcurrency := none, noCache := none }
    { allowConcurrency := some false, allowUnconfirmed := some true,
      noCache := some false }
    { allowConcurrency := some false }
    { allowConcurrency := none, allowUnconfirmed := some true }
    rfl
  exact ⟨h.2.2.1, h.2.2.2.1⟩

/-- C8 counterexample: the alarm operations do not accept a `noCache`
option — the `JSG_STRUCT` field lists of `GetAlarmOptions` and
`SetAlarmOptions` have no `noCache` entry. -/
theorem alarm_options_lack_noCache_counterexample :
    "noCache" ∉ jsgStructFields StorageOp.getAlarm ∧
    "noCache" ∉ jsgStructFields StorageOp.setAlarm ∧
    "noCache" ∉ jsgStructFields StorageOp.deleteAlarm := by
  decide

/-- C8 (amended): every public storage operation accepts an options
object with an `allowConcurrency?` field; `allowUnconfirmed?` appears on
exactly the write operations; `noCache?` appears on exactly the key/value
operations (`get`, `list`, `put`, `delete`) and not on the alarm
operations. -/
theorem storage_op_option_fields :
    (∀ op : StorageOp, "allowConcurrency" ∈ jsgStructFields op) ∧
    (∀ op : StorageOp,
      "allowUnconfirmed" ∈ jsgStructFields op ↔ StorageOp.isWriteOp op = true) ∧
    (∀ op : StorageOp,
      "noCache" ∈ jsgStructFields op ↔ StorageOp.isAlarmOp op = false) := by
  refine ⟨fun op => ?_, fun op => ?_, fun op => ?_⟩ <;> cases op <;> decide

/-- C9: an omitted option field always converts to the conservative
value: absent `noCache` becomes `false` in `ReadOptions` / `WriteOptions`,
and absent `allowUnconfirmed` becomes `false` in `WriteOptions`. -/
theorem omitted_options_default_conservative
    (g : GetOptions) (l : ListOptions) (p q : PutOptions) (sa : SetAlarmOptions)
    (hg : g.noCache = none) (hl : l.noCache = none)
    (hp : p.allowUnconfirmed = none) (hq : q.noCache = none)
    (hs : sa.allowUnconfirmed = none) :
    (GetOptions.toReadOptions g).noCache = false ∧
    (ListOptions.toReadOptions l).noCache = false ∧
    (PutOptions.toWriteOptions p).allowUnconfirmed = false ∧
    (PutOptions.toWriteOptions q).noCache = false ∧
    (SetAlarmOptions.toWriteOptions sa).allowUnconfirmed = false := by
  simp [GetOptions.toReadOptions, ListOptions.toReadOptions,
        PutOptions.toWriteOptions, SetAlarmOptions.toWriteOptions,
        hg, hl, hp, hq, hs]

/-- Witness for C9: concrete options records with the fields absent. -/
theorem omitted_options_default_conservative_witness :
    (GetOptions.toReadOptions { allowConcurrency := some true, noCache := none }).noCache
      = false ∧
    (SetAlarmOptions.toWriteOptions
        { allowConcurrency := some true, allowUnconfirmed := none }).allowUnconfirmed
      = false := by
  have h := omitted_options_default_conservative
    { allowConcurrency := some true, noCache := none }
    { start := none, startAfter := none, «end» := none, prefix_ := none,
      reverse := none, limit := none, allowConcurrency := none, noCache := none }
    { allowConcurrency := none, allowUnconfirmed := none, noCache := some true }
    { allowConcurrency := none, allowUnconfirmed := some true, noCache := none }
    { allowConcurrency := some true, allowUnconfirmed := none }
    rfl rfl rfl rfl rfl
  exact ⟨h.1, h.2.2.2.2⟩

/-- C10: both public scopes override `useDirectIo()` to `false`, so
`configureOptions` returns the caller's options unchanged and the direct
I/O forcing is never engaged through the application-facing API. -/
theorem public_scopes_use_cached_io (g : GetOptions) (l : ListOptions) (p : PutOptions) :
    DurableObjectStorage.useDirectIo = false ∧
    DurableObjectTransaction.useDirectIo = false ∧
    configureGetOptions DurableObjectStorage.useDirectIo g = g ∧
    configureListOptions DurableObjectStorage.useDirectIo l = l ∧
    configurePutOptions DurableObjectStorage.useDirectIo p = p ∧
    configureGetOptions DurableObjectTransaction.useDirectIo g = g ∧
    configureListOptions DurableObjectTransaction.useDirectIo l = l ∧
    configurePutOptions DurableObjectTransaction.useDirectIo p = p := by
  simp [DurableObjectStorage.useDirectIo, DurableObjectTransaction.useDirectIo,
        configureGetOptions, configureListOptions, configurePutOptions]

/-- Total number of commit/rollback primitives issued to the cache
transaction. -/
def txnIssued (s : TxnState) : Nat := s.commitsIssued + s.rollbacksIssued

/-- One closure-level operation preserves the sum of issued primitives
plus the open handle (the handle is "spent" on the primitive it issues). -/
lemma applyTxnJsOp_balance (s : TxnState) (op : TxnJsOp) :
    txnIssued (applyTxnJsOp s op) + (if (applyTxnJsOp s op).cacheTxn then 1 else 0) =
      txnIssued s + (if s.cacheTxn then 1 else 0) := by
  obtain ⟨ct, rb, ci, ri, d⟩ := s
  cases ct <;> cases rb <;> cases op <;>
    simp [applyTxnJsOp, txnIssued, rollback, maybeRollback, txnPut, txnDelete,
          getCacheTxn] <;>
    omega

/-- The whole closure preserves the same balance. -/
lemma foldl_applyTxnJsOp_balance (ops : List TxnJsOp) : ∀ s : TxnState,
    txnIssued (ops.foldl applyTxnJsOp s) +
        (if (ops.foldl applyTxnJsOp s).cacheTxn then 1 else 0) =
      txnIssued s + (if s.cacheTxn then 1 else 0) := by
  induction ops with
  | nil => intro s; rfl
  | cons op ops ih =>
      intro s
      rw [List.foldl_cons, ih (applyTxnJsOp s op), applyTxnJsOp_balance]

/-- `maybeCommit` always leaves the handle closed. -/
lemma maybeCommit_closes (s : TxnState) : (maybeCommit s).cacheTxn = false := by
  cases h : s.cacheTxn <;> simp [maybeCommit, h]

/-- `maybeRollback` always leaves the handle closed. -/
lemma maybeRollback_closes (s : TxnState) : (maybeRollback s).cacheTxn = false := by
  cases h : s.cacheTxn <;> simp [maybeRollback, h]

/-- On a closed handle, `maybeCommit` is the identity. -/
lemma maybeCommit_of_closed (s : TxnState) (h : s.cacheTxn = false) :
    maybeCommit s = s := by
  simp [maybeCommit, h]

/-- On a closed handle, `maybeRollback` is the identity. -/
lemma maybeRollback_of_closed (s : TxnState) (h : s.cacheTxn = false) :
    maybeRollback s = s := by
  simp [maybeRollback, h]

/-- A callback transaction issues exactly one commit-or-rollback
primitive beyond those already issued, however the closure ends. -/
lemma runTransaction_issued (ops : List TxnJsOp) (closureThrew : Bool)
    (t : TxnState) (hopen : t.cacheTxn = true) :
    txnIssued (runTransaction ops closureThrew t) = txnIssued t + 1 := by
  have hbal := foldl_applyTxnJsOp_balance ops t
  rw [hopen] at hbal
  cases hF : (ops.foldl applyTxnJsOp t).cacheTxn <;>
    rw [hF] at hbal <;>
    cases closureThrew <;>
    simp [runTransaction, maybeCommit, maybeRollback, hF, txnIssued] at hbal ⊢ <;>
    omega

/-- C3: a second `maybeCommit` / `maybeRollback` / `rollback` on a
transaction whose handle is already closed is a silent no-op (so
performing the operation twice has the same effect as once), and a
callback transaction issues exactly one commit-or-rollback primitive to
the underlying cache transaction, whether or not the closure threw and
whatever it did — an explicit `rollback()` inside the closure included. -/
theorem txn_commit_rollback_idempotent_and_once
    (s t : TxnState) (ops : List TxnJsOp) (closureThrew : Bool)
    (hclosed : s.cacheTxn = false)
    (hopen : t.cacheTxn = true) (hci : t.commitsIssued = 0)
    (hri : t.rollbacksIssued = 0) :
    maybeCommit s = s ∧ maybeRollback s = s ∧ rollback s = s ∧
    maybeCommit (maybeCommit t) = maybeCommit t ∧
    maybeRollback (maybeRollback t) = maybeRollback t ∧
    (runTransaction ops closureThrew t).commitsIssued +
      (runTransaction ops closureThrew t).rollbacksIssued = 1 := by
  refine ⟨maybeCommit_of_closed s hclosed, maybeRollback_of_closed s hclosed,
          maybeRollback_of_closed s hclosed,
          maybeCommit_of_closed _ (maybeCommit_closes t),
          maybeRollback_of_closed _ (maybeRollback_closes t), ?_⟩
  have h := runTransaction_issued ops closureThrew t hopen
  simp [txnIssued, hci, hri] at h
  exact h

/-- Witness for C3: a committed transaction and a fresh transaction whose
closure puts a key, calls `rollback()`, and succeeds. -/
theorem txn_commit_rollback_idempotent_and_once_witness :
    (runTransaction [TxnJsOp.putOp "k" "v", TxnJsOp.rollbackOp] false
        (TxnState.fresh [])).commitsIssued +
      (runTransaction [TxnJsOp.putOp "k" "v", TxnJsOp.rollbackOp] false
        (TxnState.fresh [])).rollbacksIssued = 1 := by
  have h := txn_commit_rollback_idempotent_and_once
    (maybeCommit (TxnState.fresh [])) (TxnState.fresh [])
    [TxnJsOp.putOp "k" "v", TxnJsOp.rollbackOp] false
    (by decide) rfl rfl rfl
  exact h.2.2.2.2.2

/-- C4: on a transaction in a terminal state (its cache-transaction
handle absent), `get`, `put`, `delete` and `list` all fail with
`TransactionClosed`, while commit and rollback are silent no-ops. -/
theorem closed_txn_ops_fail (s : TxnState) (k v : String)
    (h : s.cacheTxn = false) :
    txnGet s k = Except.error StorageOpError.transactionClosed ∧
    txnPut s k v = Except.error StorageOpError.transactionClosed ∧
    txnDelete s k = Except.error StorageOpError.transactionClosed ∧
    txnList s = Except.error StorageOpError.transactionClosed ∧
    maybeCommit s = s ∧ maybeRollback s = s ∧ rollback s = s := by
  have hc : getCacheTxn s = Except.error StorageOpError.transactionClosed := by
    cases hrb : s.rolledBack <;> simp [getCacheTxn, h, hrb]
  refine ⟨?_, ?_, ?_, ?_, ?_, ?_, ?_⟩ <;>
    simp [txnGet, txnPut, txnDelete, txnList, hc, maybeCommit, maybeRollback,
          rollback, h]

/-- Witness for C4: a transaction closed by a commit. -/
theorem closed_txn_ops_fail_witness :
    txnGet (maybeCommit (TxnState.fresh [("a", "1")])) "a" =
      Except.error StorageOpError.transactionClosed ∧
    txnList (maybeCommit (TxnState.fresh [("a", "1")])) =
      Except.error StorageOpError.transactionClosed := by
  have h := closed_txn_ops_fail (maybeCommit (TxnState.fresh [("a", "1")]))
    "a" "2" (by decide)
  exact ⟨h.1, h.2.2.2.1⟩

/-- C7: `deleteAll()` on a `DurableObjectTransaction` always fails with
`UnsupportedOperation` and returns no new state, while `deleteAll()` on
the root `DurableObjectStorage` clears all keys in one batch. -/
theorem deleteAll_txn_unsupported_root_clears
    (s : TxnState) (m : List (String × String)) (k : String) :
    txnDeleteAll s = Except.error StorageOpError.unsupportedOperation ∧
    storageDeleteAll m = [] ∧
    (storageDeleteAll m).lookup k = none := by
  simp [txnDeleteAll, storageDeleteAll]

/-- `traceDelta` of an empty trace. -/
lemma traceDelta_nil : traceDelta [] = 0 := rfl

/-- `traceDelta` of a cons. -/
lemma traceDelta_cons (e : TrackerEv) (t : List TrackerEv) :
    traceDelta (e :: t) = evDelta e + traceDelta t := by
  simp [traceDelta]

/-- The counter delta of a trace is its start count minus its finish
count. -/
lemma traceDelta_eq_counts (t : List TrackerEv) :
    traceDelta t = (t.count TrackerEv.startRequest : Int) -
      (t.count TrackerEv.finishRequest : Int) := by
  induction t with
  | nil => simp [traceDelta]
  | cons e t ih =>
      rw [traceDelta_cons, ih]
      cases e <;> simp [evDelta, List.count_cons] <;> omega

/-- With hooks live and a strictly positive counter that stays positive
before every proper prefix's end and reaches zero exactly at the end, a
run changes nothing but the counter and one final `inactive()` call. -/
lemma runTracker_closes (t : List TrackerEv) : ∀ (c : Int) (a i : Nat),
    0 < c →
    TrackerEv.shutdownEv ∉ t →
    (∀ k : Nat, k < t.length → 0 < c + traceDelta (t.take k)) →
    c + traceDelta t = 0 →
    runTracker ⟨c, true, a, i⟩ t = ⟨0, true, a, i + 1⟩ := by
  induction t with
  | nil =>
      intro c a i hc _ _ hz
      rw [traceDelta_nil] at hz
      omega
  | cons e t ih =>
      intro c a i hc hns hpre hz
      rw [traceDelta_cons] at hz
      have hns' : TrackerEv.shutdownEv ∉ t := fun h => hns (List.mem_cons_of_mem e h)
      cases e with
      | startRequest =>
          have hstep : trackerStep ⟨c, true, a, i⟩ TrackerEv.startRequest =
              ⟨c + 1, true, a, i⟩ := by
            have : ¬ (c = 0) := by omega
            simp [trackerStep, this]
          have hrun : runTracker (⟨c, true, a, i⟩ : TrackerState)
              (TrackerEv.startRequest :: t) =
              runTracker ⟨c + 1, true, a, i⟩ t := by
            simp [runTracker, hstep]
          rw [hrun]
          refine ih (c + 1) a i (by omega) hns' ?_ ?_
          · intro k hk
            have := hpre (k + 1) (by simpa using Nat.succ_lt_succ hk)
            rw [List.take_succ_cons, traceDelta_cons] at this
            simp [evDelta] at this ⊢
            omega
          · simp [evDelta] at hz
            omega
      | finishRequest =>
          cases t with
          | nil =>
              rw [traceDelta_nil] at hz
              have hc1 : c = 1 := by simp [evDelta] at hz; omega
              subst hc1
              have hstep : trackerStep ⟨1, true, a, i⟩ TrackerEv.finishRequest =
                  ⟨0, true, a, i + 1⟩ := by
                simp [trackerStep]
              simp [runTracker, hstep]
          | cons e' t' =>
              have h1 := hpre 1 (by simp)
              rw [List.take_succ_cons, List.take_zero, traceDelta_cons,
                  traceDelta_nil] at h1
              have hcpos : 0 < c - 1 := by simp [evDelta] at h1; omega
              have hstep : trackerStep ⟨c, true, a, i⟩ TrackerEv.finishRequest =
                  ⟨c - 1, true, a, i⟩ := by
                have : ¬ (c - 1 = 0) := by omega
                simp [trackerStep, this]
              have hrun : runTracker (⟨c, true, a, i⟩ : TrackerState)
                  (TrackerEv.finishRequest :: e' :: t') =
                  runTracker ⟨c - 1, true, a, i⟩ (e' :: t') := by
                simp [runTracker, hstep]
              rw [hrun]
              refine ih (c - 1) a i hcpos hns' ?_ ?_
              · intro k hk
                have := hpre (k + 1) (by simpa using Nat.succ_lt_succ hk)
                rw [List.take_succ_cons, traceDelta_cons] at this
                simp [evDelta] at this ⊢
                omega
              · simp [evDelta] at hz
                omega
      | shutdownEv => exact absurd (List.mem_cons_self _ _) hns

/-- C5: N `startRequest()` calls whose N tokens are all destroyed, with
the active count never returning to 0 strictly in between, invoke
`hooks.active()` exactly once and `hooks.inactive()` exactly once,
whatever N and the interleaving. -/
theorem tracker_hooks_fire_once (t : List TrackerEv) (n : Nat)
    (hn : 1 ≤ n)
    (hstart : t.count TrackerEv.startRequest = n)
    (hfin : t.count TrackerEv.finishRequest = n)
    (hnoshut : TrackerEv.shutdownEv ∉ t)
    (hpos : ∀ k : Nat, k < t.length → 0 < k → 0 < traceDelta (t.take k)) :
    runTracker TrackerState.init t =
      { activeRequests := 0, hooksPresent := true,
        activeCalls := 1, inactiveCalls := 1 } := by
  have hdelta : traceDelta t = 0 := by
    rw [traceDelta_eq_counts, hstart, hfin]; omega
  cases t with
  | nil => simp [List.count_nil] at hstart; omega
  | cons e t' =>
      have hns' : TrackerEv.shutdownEv ∉ t' :=
        fun h => hnoshut (List.mem_cons_of_mem e h)
      have he : e = TrackerEv.startRequest := by
        cases e with
        | startRequest => rfl
        | finishRequest =>
            cases t' with
            | nil => simp [List.count_cons] at hstart; omega
            | cons e'' t'' =>
                have := hpos 1 (by simp) (by omega)
                rw [List.take_succ_cons, List.take_zero, traceDelta_cons,
                    traceDelta_nil] at this
                simp [evDelta] at this
        | shutdownEv => exact absurd (List.mem_cons_self _ _) hnoshut
      subst he
      have hstep : trackerStep TrackerState.init TrackerEv.startRequest =
          ⟨1, true, 1, 0⟩ := by
        simp [trackerStep, TrackerState.init]
      have hrun : runTracker TrackerState.init (TrackerEv.startRequest :: t') =
          runTracker ⟨1, true, 1, 0⟩ t' := by
        simp only [runTracker, List.foldl_cons, hstep]
      rw [hrun]
      refine runTracker_closes t' 1 1 0 (by omega) hns' ?_ ?_
      · intro k hk
        have := hpos (k + 1) (by simpa using Nat.succ_lt_succ hk) (by omega)
        rw [List.take_succ_cons, traceDelta_cons] at this
        simp [evDelta] at this ⊢
        omega
      · rw [traceDelta_cons] at hdelta
        simp [evDelta] at hdelta
        omega

/-- Witness for C5: three overlapping requests; one `active()` and one
`inactive()` call. -/
theorem tracker_hooks_fire_once_witness :
    runTracker TrackerState.init
        [TrackerEv.startRequest, TrackerEv.startRequest, TrackerEv.finishRequest,
         TrackerEv.startRequest, TrackerEv.finishRequest, TrackerEv.finishRequest] =
      { activeRequests := 0, hooksPresent := true,
        activeCalls := 1, inactiveCalls := 1 } :=
  tracker_hooks_fire_once
    [TrackerEv.startRequest, TrackerEv.startRequest, TrackerEv.finishRequest,
     TrackerEv.startRequest, TrackerEv.finishRequest, TrackerEv.finishRequest]
    3 (by decide) (by decide) (by decide) (by decide) (by decide)

/-- With the hooks reference cleared, a run only moves the counter. -/
lemma runTracker_no_hooks (t : List TrackerEv) : ∀ s : TrackerState,
    s.hooksPresent = false →
    runTracker s t =
      ⟨s.activeRequests + traceDelta t, false, s.activeCalls, s.inactiveCalls⟩ := by
  induction t with
  | nil =>
      intro s h
      obtain ⟨c, hp, a, i⟩ := s
      simp at h
      subst h
      simp [runTracker, traceDelta_nil]
  | cons e t ih =>
      intro s h
      have hstep : trackerStep s e =
          ⟨s.activeRequests + evDelta e, false, s.activeCalls, s.inactiveCalls⟩ := by
        cases e <;> simp [trackerStep, h, evDelta] <;> omega
      have hrun : runTracker s (e :: t) = runTracker (trackerStep s e) t := by
        simp [runTracker]
      rw [hrun, hstep, ih _ rfl, traceDelta_cons]
      simp
      omega

/-- C6: once `shutdown()` has run, neither hook is ever invoked again —
for every subsequent event sequence the hook-call counters are unchanged
— even though `activeRequests` keeps moving by the trace's delta. -/
theorem shutdown_silences_hooks (s : TrackerState) (t : List TrackerEv) :
    (runTracker (trackerStep s TrackerEv.shutdownEv) t).activeCalls = s.activeCalls ∧
    (runTracker (trackerStep s TrackerEv.shutdownEv) t).inactiveCalls = s.inactiveCalls ∧
    (runTracker (trackerStep s TrackerEv.shutdownEv) t).activeRequests =
      s.activeRequests + traceDelta t ∧
    (runTracker (trackerStep s TrackerEv.shutdownEv) t).hooksPresent = false := by
  have hstep : trackerStep s TrackerEv.shutdownEv =
      ⟨s.activeRequests, false, s.activeCalls, s.inactiveCalls⟩ := by
    simp [trackerStep]
  rw [hstep, runTracker_no_hooks t _ rfl]
  exact ⟨rfl, rfl, rfl, rfl⟩

/-- C2: `deleteAlarm()` inside the running `alarm()` handler is a no-op
unless a new alarm was queued by `setAlarm` during that same invocation,
in which case it removes the newly queued alarm; and in the spec's
section 8 scenario the handler fires exactly once, a subsequent
`getAlarm()` reports no alarm, and another scheduler pass does not fire
again. -/
theorem deleteAlarm_reentrancy_and_single_fire
    (s u : AlarmState) (time : Int)
    (hs : s.firing = true) (hq : s.queuedDuringFiring = false)
    (hu : u.firing = true) :
    deleteAlarm s = s ∧
    getAlarm (deleteAlarm (setAlarm time u)) = none ∧
    alarmScenario.fireCount = 1 ∧
    getAlarm alarmScenario = none ∧
    fireAlarm alarmScenario = alarmScenario := by
  refine ⟨?_, ?_, ?_, ?_, ?_⟩
  · simp [deleteAlarm, hs, hq]
  · simp [deleteAlarm, setAlarm, getAlarm, hu]
  · decide
  · decide
  · decide

/-- Witness for C2: the no-op and the removal at concrete handler states,
and the scenario's single fire. -/
theorem deleteAlarm_reentrancy_and_single_fire_witness :
    deleteAlarm (⟨none, true, false, 1⟩ : AlarmState) = ⟨none, true, false, 1⟩ ∧
    getAlarm (deleteAlarm (setAlarm 50 (⟨none, true, false, 1⟩ : AlarmState))) = none ∧
    alarmScenario.fireCount = 1 := by
  have h := deleteAlarm_reentrancy_and_single_fire
    (⟨none, true, false, 1⟩ : AlarmState) (⟨none, true, false, 1⟩ : AlarmState)
    50 rfl rfl rfl
  exact ⟨h.1, h.2.1, h.2.2.1⟩

end Workerd
